import Mathlib

/-!
Verification of the access-control and data-API core of the asphanyx
multi-tenant data platform, as a shallow embedding of the Rust sources.

The embedding covers:
* the pure decision engine of
  `access_control/application/query_services/access_control_query_service_impl.rs`
  (applicability filter, specificity ranking, tie-break table, decision cache
  and audit control flow);
* the SQL policy-rule finder of
  `access_control/infrastructure/persistence/repositories/postgres/sqlx_policy_rule_repository_impl.rs`
  modelled as a pure function over the stored rule rows;
* the token verifier of
  `iam_integration/application/acl/grpc_iam_authentication_facade_impl.rs`
  (TTL cache, circuit breaker) as a state machine over abstract instants,
  with the remote gRPC interaction supplied as an oracle outcome;
* identifier validation of
  `data_api/infrastructure/persistence/repositories/postgres/sqlx_data_api_repository_impl.rs`
  and `data_api/domain/model/value_objects/column_name.rs`;
* the delete coordinator of
  `data_api/application/command_services/data_api_command_service_impl.rs`
  with repository and facade calls supplied as oracle results;
* the REST authentication-context parser of
  `data_api/interfaces/rest/controllers/data_api_rest_controller.rs`.

Machine integers (`u8` specificities, `u32` failure counters, `u64` epoch
seconds) are modelled as `Nat`: none of the modelled code paths can overflow
them (specificities are bounded by 2, the failure counter uses
`saturating_add` and is reset at the threshold). `Instant` is modelled as an
abstract `Nat` tick. Rust `HashMap`s are modelled as association lists whose
`insert` prepends (first hit shadows, matching replacement semantics).
-/

/-- Effect of a policy rule (`permission_effect.rs`). -/
inductive PermissionEffect where
  | Allow
  | Deny
deriving DecidableEq, Repr

/-- String parsing of an effect (`PermissionEffect::from_str` in
`permission_effect.rs`): only "allow" and "deny" are stored representations;
anything else is an infrastructure error. -/
def PermissionEffect.fromStr (value : String) : Except String PermissionEffect :=
  if value = "allow" then .ok .Allow
  else if value = "deny" then .ok .Deny
  else .error "invalid effect stored"

/-- A policy rule as handed to the decision engine
(`policy_rule_repository.rs`, struct `PolicyRuleRecord`). -/
structure PolicyRuleRecord where
  tenant_id : String
  role_name : String
  resource_name : String
  action_name : String
  effect : PermissionEffect
  allowed_columns : Option (List String)
  denied_columns : Option (List String)
  owner_scope : Bool
deriving DecidableEq, Repr

/-- The permission query evaluated by the engine
(`evaluate_permission_query.rs`). The validated value objects (TenantId,
PrincipalId, ResourceName, ActionName) are modelled by their underlying
strings; the engine only ever reads `.value()`. -/
structure EvaluatePermissionQuery where
  tenant_id : String
  principal_id : String
  resource_name : String
  action_name : String
  requested_columns : List String
  subject_owner_id : Option String
  row_owner_id : Option String
  request_id : Option String
deriving DecidableEq, Repr

/-- Decision returned by the engine
(`access_control_query_service.rs`, `AuthorizationDecisionResult`). -/
structure AuthorizationDecisionResult where
  allowed : Bool
  reason : String
deriving DecidableEq, Repr

/-- Specificity tuple of a rule (`RuleSpecificity` in
`access_control_query_service_impl.rs`); the Rust struct derives `Ord`,
which is the lexicographic order on the four `u8` fields. -/
structure RuleSpecificity where
  resource_specificity : Nat
  action_specificity : Nat
  column_specificity : Nat
  owner_specificity : Nat
deriving DecidableEq, Repr

/-- Lexicographic `<=` on specificity tuples: the order produced by Rust's
derived `Ord` on `RuleSpecificity` (field declaration order). -/
def RuleSpecificity.leb (a b : RuleSpecificity) : Bool :=
  decide (a.resource_specificity < b.resource_specificity ∨
    (a.resource_specificity = b.resource_specificity ∧
      (a.action_specificity < b.action_specificity ∨
        (a.action_specificity = b.action_specificity ∧
          (a.column_specificity < b.column_specificity ∨
            (a.column_specificity = b.column_specificity ∧
              a.owner_specificity ≤ b.owner_specificity))))))

/-- Rust `Ord::max`: returns the second argument when the two compare equal. -/
def RuleSpecificity.maxSpec (a b : RuleSpecificity) : RuleSpecificity :=
  if a.leb b then b else a

/-- Column applicability of a rule (`rule_matches_columns` in
`access_control_query_service_impl.rs`). -/
def rule_matches_columns (requested_columns : List String)
    (allowed_columns denied_columns : Option (List String)) : Bool :=
  let allowed_match :=
    match allowed_columns with
    | none => true
    | some allowed => requested_columns.all fun c => allowed.any fun a => a == c
  if !allowed_match then
    false
  else
    match denied_columns with
    | none => true
    | some denied => requested_columns.all fun c => denied.all fun d => d != c

/-- Owner-scope applicability of a rule (`rule_matches_owner_scope` in
`access_control_query_service_impl.rs`). -/
def rule_matches_owner_scope (owner_scope : Bool)
    (subject_owner_id row_owner_id : Option String) : Bool :=
  if !owner_scope then
    true
  else
    match subject_owner_id, row_owner_id with
    | some subject, some row_owner => subject == row_owner
    | _, _ => false

/-- The applicability filter of `evaluate_rules`: the two chained `.filter`
calls over the rule list. -/
def applicable_rules (query : EvaluatePermissionQuery)
    (rules : List PolicyRuleRecord) : List PolicyRuleRecord :=
  (rules.filter fun rule =>
      rule_matches_columns query.requested_columns
        rule.allowed_columns rule.denied_columns).filter
    fun rule =>
      rule_matches_owner_scope rule.owner_scope
        query.subject_owner_id query.row_owner_id

/-- Specificity of a rule for a query (`rule_specificity` in
`access_control_query_service_impl.rs`). -/
def rule_specificity (rule : PolicyRuleRecord)
    (query : EvaluatePermissionQuery) : RuleSpecificity :=
  { resource_specificity := if rule.resource_name = query.resource_name then 2 else 1
    action_specificity := if rule.action_name = query.action_name then 2 else 1
    column_specificity :=
      if rule.allowed_columns.isSome || rule.denied_columns.isSome then 1 else 0
    owner_specificity := if rule.owner_scope then 1 else 0 }

/-- One accumulator update of the best-specificity loop:
`Some(best.map_or(specificity, |s| s.max(specificity)))`. -/
def update_best (best : Option RuleSpecificity) (specificity : RuleSpecificity) :
    Option RuleSpecificity :=
  some (match best with
    | none => specificity
    | some s => s.maxSpec specificity)

/-- One iteration of the `for rule in &applicable` loop of `evaluate_rules`,
updating `(best_allow, best_deny)` according to the rule's effect. -/
def best_step (query : EvaluatePermissionQuery)
    (acc : Option RuleSpecificity × Option RuleSpecificity)
    (rule : PolicyRuleRecord) :
    Option RuleSpecificity × Option RuleSpecificity :=
  let specificity := rule_specificity rule query
  match rule.effect with
  | .Allow => (update_best acc.1 specificity, acc.2)
  | .Deny => (acc.1, update_best acc.2 specificity)

/-- The pure decision engine (`evaluate_rules` in
`access_control_query_service_impl.rs`): applicability filter, best-allow /
best-deny aggregation, tie-break table. -/
def evaluate_rules (query : EvaluatePermissionQuery)
    (rules : List PolicyRuleRecord) : AuthorizationDecisionResult :=
  let applicable := applicable_rules query rules
  if applicable.isEmpty then
    { allowed := false, reason := "no rule matched context/columns" }
  else
    match applicable.foldl (best_step query) (none, none) with
    | (none, some _) => { allowed := false, reason := "explicit deny rule" }
    | (some _, none) => { allowed := true, reason := "allow rule matched" }
    | (some allow_spec, some deny_spec) =>
      if allow_spec.leb deny_spec then
        { allowed := false, reason := "deny rule won by precedence" }
      else
        { allowed := true, reason := "allow rule won by specificity" }
    | (none, none) => { allowed := false, reason := "no matching policy rule" }

/-- Maximum of a list of specificities under `update_best`, starting empty:
the value `best_allow` (resp. `best_deny`) holds after the loop when the
listed specificities are those of the applicable allow (resp. deny) rules. -/
def list_max_spec (l : List RuleSpecificity) : Option RuleSpecificity :=
  l.foldl update_best none

/-- Best specificity among applicable Allow rules, as the spec describes the
`best_allow` aggregate. -/
def best_allow_spec (query : EvaluatePermissionQuery)
    (rules : List PolicyRuleRecord) : Option RuleSpecificity :=
  list_max_spec
    (((applicable_rules query rules).filter
        fun rule => rule.effect == PermissionEffect.Allow).map
      fun rule => rule_specificity rule query)

/-- Best specificity among applicable Deny rules, as the spec describes the
`best_deny` aggregate. -/
def best_deny_spec (query : EvaluatePermissionQuery)
    (rules : List PolicyRuleRecord) : Option RuleSpecificity :=
  list_max_spec
    (((applicable_rules query rules).filter
        fun rule => rule.effect == PermissionEffect.Deny).map
      fun rule => rule_specificity rule query)

/-- Unfolding of the lexicographic comparison into a proposition `omega` can
work with. -/
theorem RuleSpecificity.leb_iff (a b : RuleSpecificity) :
    a.leb b = true ↔
      (a.resource_specificity < b.resource_specificity ∨
        (a.resource_specificity = b.resource_specificity ∧
          (a.action_specificity < b.action_specificity ∨
            (a.action_specificity = b.action_specificity ∧
              (a.column_specificity < b.column_specificity ∨
                (a.column_specificity = b.column_specificity ∧
                  a.owner_specificity ≤ b.owner_specificity)))))) := by
  simp [RuleSpecificity.leb]

/-- Right-left commutation of two `maxSpec` updates, the key fact behind
order-insensitivity of the best-specificity loop. -/
theorem RuleSpecificity.maxSpec_right_comm (b x y : RuleSpecificity) :
    (b.maxSpec x).maxSpec y = (b.maxSpec y).maxSpec x := by
  obtain ⟨b1, b2, b3, b4⟩ := b
  obtain ⟨x1, x2, x3, x4⟩ := x
  obtain ⟨y1, y2, y3, y4⟩ := y
  simp only [RuleSpecificity.maxSpec]
  by_cases hbx : RuleSpecificity.leb ⟨b1, b2, b3, b4⟩ ⟨x1, x2, x3, x4⟩ = true <;>
    by_cases hby : RuleSpecificity.leb ⟨b1, b2, b3, b4⟩ ⟨y1, y2, y3, y4⟩ = true <;>
    by_cases hxy : RuleSpecificity.leb ⟨x1, x2, x3, x4⟩ ⟨y1, y2, y3, y4⟩ = true <;>
    by_cases hyx : RuleSpecificity.leb ⟨y1, y2, y3, y4⟩ ⟨x1, x2, x3, x4⟩ = true <;>
    simp only [RuleSpecificity.leb_iff, Bool.not_eq_true, ← Bool.not_eq_true,
      RuleSpecificity.leb_iff] at hbx hby hxy hyx <;>
    simp [hbx, hby, hxy, hyx, RuleSpecificity.leb_iff, RuleSpecificity.mk.injEq] <;>
    omega

/-- Commutation of two `update_best` steps. -/
theorem update_best_right_comm (o : Option RuleSpecificity)
    (x y : RuleSpecificity) :
    update_best (update_best o x) y = update_best (update_best o y) x := by
  cases o with
  | none =>
    simp only [update_best, Option.some.injEq]
    by_cases hxy : x.leb y = true <;> by_cases hyx : y.leb x = true <;>
      simp only [RuleSpecificity.maxSpec, hxy, hyx, if_true, if_false,
        Bool.false_eq_true, ite_false, ite_true] <;>
      first
        | rfl
        | (obtain ⟨x1, x2, x3, x4⟩ := x
           obtain ⟨y1, y2, y3, y4⟩ := y
           simp only [RuleSpecificity.leb_iff, Bool.not_eq_true,
             ← Bool.not_eq_true, RuleSpecificity.leb_iff] at hxy hyx
           simp only [RuleSpecificity.mk.injEq]
           omega)
  | some b =>
    simp only [update_best, Option.some.injEq]
    exact RuleSpecificity.maxSpec_right_comm b x y

/-- Two `best_step` iterations commute, so the loop result does not depend on
the order of the applicable rules. -/
theorem best_step_right_comm (query : EvaluatePermissionQuery)
    (acc : Option RuleSpecificity × Option RuleSpecificity)
    (r s : PolicyRuleRecord) :
    best_step query (best_step query acc r) s =
      best_step query (best_step query acc s) r := by
  obtain ⟨ba, bd⟩ := acc
  cases hr : r.effect <;> cases hs : s.effect <;>
    simp [best_step, hr, hs, update_best_right_comm]

/-- The best-specificity loop splits into independent folds over the allow
rules and the deny rules. -/
theorem foldl_best_step_eq (query : EvaluatePermissionQuery) :
    ∀ (l : List PolicyRuleRecord)
      (ba bd : Option RuleSpecificity),
      l.foldl (best_step query) (ba, bd) =
        (((l.filter fun rule => rule.effect == PermissionEffect.Allow).map
            fun rule => rule_specificity rule query).foldl update_best ba,
          ((l.filter fun rule => rule.effect == PermissionEffect.Deny).map
            fun rule => rule_specificity rule query).foldl update_best bd) := by
  intro l
  induction l with
  | nil => intro ba bd; rfl
  | cons r l ih =>
    intro ba bd
    cases hr : r.effect <;>
      simp [best_step, hr, List.filter_cons, ih]

/-- A fold of `update_best` is `none` only when it starts from `none` on an
empty list. -/
theorem foldl_update_best_eq_none (l : List RuleSpecificity) :
    ∀ (o : Option RuleSpecificity),
      l.foldl update_best o = none ↔ (o = none ∧ l = []) := by
  induction l with
  | nil => intro o; simp
  | cons s l ih =>
    intro o
    simp only [List.foldl_cons, ih, update_best]
    simp

/-- Propositional characterization of `rule_matches_columns`: every requested
column must be inside `allowed_columns` when that list is present and outside
`denied_columns` when that list is present; an empty request satisfies both
vacuously. -/
theorem rule_matches_columns_iff (requested : List String)
    (allowed_columns denied_columns : Option (List String)) :
    rule_matches_columns requested allowed_columns denied_columns = true ↔
      ∀ c ∈ requested,
        (∀ allowed, allowed_columns = some allowed → c ∈ allowed) ∧
        (∀ denied, denied_columns = some denied → c ∉ denied) := by
  cases allowed_columns with
  | none =>
    cases denied_columns with
    | none => simp [rule_matches_columns]
    | some denied =>
      simp only [rule_matches_columns, List.all_eq_true, bne_iff_ne, ne_eq,
        Bool.not_true, Bool.false_eq_true, if_false, Option.some.injEq,
        forall_eq_apply_imp_iff, Option.some_ne_none, false_implies,
        implies_true, true_and]
      constructor
      · intro h c hc
        refine ⟨by simp, fun denied' hd => ?_⟩
        subst hd
        intro hmem
        exact h c hc c hmem rfl
      · intro h c hc d hd hdc
        exact (h c hc).2 denied rfl (hdc ▸ hd)
  | some allowed =>
    cases denied_columns with
    | none =>
      simp only [rule_matches_columns, List.all_eq_true, List.any_eq_true,
        beq_iff_eq, Option.some.injEq]
      constructor
      · intro h
        split at h
        · exact absurd h (by simp)
        · rename_i hmatch
          simp only [Bool.not_eq_true', Bool.not_eq_false] at hmatch
          simp only [List.all_eq_true, List.any_eq_true, beq_iff_eq] at hmatch
          intro c hc
          refine ⟨fun l hl => ?_, by simp⟩
          obtain ⟨a, ha, rfl⟩ := hmatch c hc
          exact hl ▸ ha
      · intro h
        have : (requested.all fun c => allowed.any fun a => a == c) = true := by
          simp only [List.all_eq_true, List.any_eq_true, beq_iff_eq]
          intro c hc
          exact ⟨c, (h c hc).1 allowed rfl, rfl⟩
        simp [this]
    | some denied =>
      simp only [rule_matches_columns, List.all_eq_true, List.any_eq_true,
        beq_iff_eq, Option.some.injEq]
      constructor
      · intro h
        split at h
        · exact absurd h (by simp)
        · rename_i hmatch
          simp only [Bool.not_eq_true', Bool.not_eq_false] at hmatch
          simp only [List.all_eq_true, List.any_eq_true, beq_iff_eq] at hmatch
          simp only [List.all_eq_true, bne_iff_ne, ne_eq] at h
          intro c hc
          constructor
          · intro l hl
            obtain ⟨a, ha, rfl⟩ := hmatch c hc
            exact hl ▸ ha
          · intro l hl
            subst hl
            intro hmem
            exact h c hc c hmem rfl
      · intro h
        have hall : (requested.all fun c => allowed.any fun a => a == c) = true := by
          simp only [List.all_eq_true, List.any_eq_true, beq_iff_eq]
          intro c hc
          exact ⟨c, (h c hc).1 allowed rfl, rfl⟩
        simp only [hall, Bool.not_true, Bool.false_eq_true, if_false,
          List.all_eq_true, bne_iff_ne, ne_eq]
        intro c hc d hd
        intro hdc
        exact (h c hc).2 denied rfl (hdc ▸ hd)

/-- Propositional characterization of `rule_matches_owner_scope`: an
owner-scoped rule requires both owner ids present and equal. -/
theorem rule_matches_owner_scope_iff (owner_scope : Bool)
    (subject_owner_id row_owner_id : Option String) :
    rule_matches_owner_scope owner_scope subject_owner_id row_owner_id = true ↔
      (owner_scope = true →
        ∃ owner, subject_owner_id = some owner ∧ row_owner_id = some owner) := by
  cases owner_scope with
  | false => simp [rule_matches_owner_scope]
  | true =>
    cases subject_owner_id with
    | none => simp [rule_matches_owner_scope]
    | some subject =>
      cases row_owner_id with
      | none => simp [rule_matches_owner_scope]
      | some row_owner =>
        simp only [rule_matches_owner_scope, Bool.not_true, Bool.false_eq_true,
          if_false, beq_iff_eq, true_implies, Option.some.injEq]
        constructor
        · rintro rfl; exact ⟨subject, rfl, rfl⟩
        · rintro ⟨owner, rfl, rfl⟩; rfl

/-- An auxiliary step for the tie-break table: the loop over an applicable set
whose rules all share one effect leaves the other side at `none` and folds the
whole set on its own side. -/
theorem best_allow_spec_eq_none_of_all_deny (query : EvaluatePermissionQuery)
    (rules : List PolicyRuleRecord)
    (h : ∀ r ∈ applicable_rules query rules, r.effect = PermissionEffect.Deny) :
    best_allow_spec query rules = none := by
  have hfa : (applicable_rules query rules).filter
      (fun rule => rule.effect == PermissionEffect.Allow) = [] := by
    rw [List.filter_eq_nil_iff]
    intro r hr
    simp [h r hr]
  simp [best_allow_spec, hfa, list_max_spec]

/-- Symmetric auxiliary step: only Allow rules applicable. -/
theorem best_deny_spec_eq_none_of_all_allow (query : EvaluatePermissionQuery)
    (rules : List PolicyRuleRecord)
    (h : ∀ r ∈ applicable_rules query rules, r.effect = PermissionEffect.Allow) :
    best_deny_spec query rules = none := by
  have hfd : (applicable_rules query rules).filter
      (fun rule => rule.effect == PermissionEffect.Deny) = [] := by
    rw [List.filter_eq_nil_iff]
    intro r hr
    simp [h r hr]
  simp [best_deny_spec, hfd, list_max_spec]

/-- The loop of `evaluate_rules` computes exactly the pair of spec-level
aggregates `(best_allow_spec, best_deny_spec)`. -/
theorem foldl_best_step_spec (query : EvaluatePermissionQuery)
    (rules : List PolicyRuleRecord) :
    (applicable_rules query rules).foldl (best_step query) (none, none) =
      (best_allow_spec query rules, best_deny_spec query rules) := by
  rw [foldl_best_step_eq]
  rfl

/-- A nonempty applicable set yields at least one `some` aggregate. -/
theorem best_spec_not_both_none (query : EvaluatePermissionQuery)
    (rules : List PolicyRuleRecord)
    (hne : applicable_rules query rules ≠ []) :
    ¬(best_allow_spec query rules = none ∧ best_deny_spec query rules = none) := by
  rintro ⟨ha, hd⟩
  simp only [best_allow_spec, best_deny_spec, list_max_spec,
    foldl_update_best_eq_none, List.map_eq_nil_iff, List.filter_eq_nil_iff,
    true_and] at ha hd
  apply hne
  rcases hl : applicable_rules query rules with _ | ⟨r, l⟩
  · rfl
  · exfalso
    have hr : r ∈ applicable_rules query rules := by rw [hl]; exact List.mem_cons_self r l
    cases heff : r.effect with
    | Allow => exact ha r hr (by simp [heff])
    | Deny => exact hd r hr (by simp [heff])

/-- When the allow side is `some`, the applicable set is nonempty. -/
theorem applicable_ne_nil_of_best_allow_some (query : EvaluatePermissionQuery)
    (rules : List PolicyRuleRecord) (a : RuleSpecificity)
    (h : best_allow_spec query rules = some a) :
    applicable_rules query rules ≠ [] := by
  intro hnil
  rw [best_allow_spec, hnil] at h
  simp [list_max_spec] at h

/-- C2. The decision of `evaluate_rules` follows the exhaustive tie-break
table over the aggregates `best_allow_spec` and `best_deny_spec`: no
applicable rule yields deny; only Deny rules yield deny with reason
"explicit deny rule"; only Allow rules yield allow with reason
"allow rule matched"; with both present, `best_deny >= best_allow`
(lexicographically) yields deny with reason "deny rule won by precedence"
and `best_deny < best_allow` yields allow with reason
"allow rule won by specificity". In particular the decision is deny whenever
no rule is applicable (default deny). -/
theorem evaluate_rules_tie_break_table (query : EvaluatePermissionQuery)
    (rules : List PolicyRuleRecord) :
    (applicable_rules query rules = [] →
      evaluate_rules query rules =
        { allowed := false, reason := "no rule matched context/columns" }) ∧
    (applicable_rules query rules ≠ [] →
      (∀ r ∈ applicable_rules query rules, r.effect = PermissionEffect.Deny) →
      evaluate_rules query rules =
        { allowed := false, reason := "explicit deny rule" }) ∧
    (applicable_rules query rules ≠ [] →
      (∀ r ∈ applicable_rules query rules, r.effect = PermissionEffect.Allow) →
      evaluate_rules query rules =
        { allowed := true, reason := "allow rule matched" }) ∧
    (∀ allow_spec deny_spec,
      best_allow_spec query rules = some allow_spec →
      best_deny_spec query rules = some deny_spec →
      allow_spec.leb deny_spec = true →
      evaluate_rules query rules =
        { allowed := false, reason := "deny rule won by precedence" }) ∧
    (∀ allow_spec deny_spec,
      best_allow_spec query rules = some allow_spec →
      best_deny_spec query rules = some deny_spec →
      allow_spec.leb deny_spec = false →
      evaluate_rules query rules =
        { allowed := true, reason := "allow rule won by specificity" }) := by
  refine ⟨fun h => ?_, fun hne hall => ?_, fun hne hall => ?_,
    fun a d ha hd hle => ?_, fun a d ha hd hle => ?_⟩
  · simp [evaluate_rules, h]
  · have hnone := best_allow_spec_eq_none_of_all_deny query rules hall
    have hd : best_deny_spec query rules ≠ none := by
      intro hdn
      exact best_spec_not_both_none query rules hne ⟨hnone, hdn⟩
    obtain ⟨d, hd⟩ := Option.ne_none_iff_exists'.mp hd
    simp [evaluate_rules, List.isEmpty_iff, hne, foldl_best_step_spec, hnone, hd]
  · have hnone := best_deny_spec_eq_none_of_all_allow query rules hall
    have ha : best_allow_spec query rules ≠ none := by
      intro han
      exact best_spec_not_both_none query rules hne ⟨han, hnone⟩
    obtain ⟨a, ha⟩ := Option.ne_none_iff_exists'.mp ha
    simp [evaluate_rules, List.isEmpty_iff, hne, foldl_best_step_spec, hnone, ha]
  · have hne := applicable_ne_nil_of_best_allow_some query rules a ha
    simp [evaluate_rules, List.isEmpty_iff, hne, foldl_best_step_spec, ha, hd, hle]
  · have hne := applicable_ne_nil_of_best_allow_some query rules a ha
    simp [evaluate_rules, List.isEmpty_iff, hne, foldl_best_step_spec, ha, hd, hle]

/-- Witness for C2: seed scenario 4 (an Allow and a Deny rule of identical
specificity) falls into the `best_deny >= best_allow` row of the table. -/
theorem evaluate_rules_tie_break_table_witness :
    evaluate_rules
      { tenant_id := "t1", principal_id := "p1", resource_name := "productos",
        action_name := "read", requested_columns := [],
        subject_owner_id := none, row_owner_id := none, request_id := none }
      [{ tenant_id := "t1", role_name := "admin", resource_name := "productos",
         action_name := "read", effect := .Allow, allowed_columns := none,
         denied_columns := none, owner_scope := false },
       { tenant_id := "t1", role_name := "admin", resource_name := "productos",
         action_name := "read", effect := .Deny, allowed_columns := none,
         denied_columns := none, owner_scope := false }] =
      { allowed := false, reason := "deny rule won by precedence" } :=
  (evaluate_rules_tie_break_table _ _).2.2.2.1 ⟨2, 2, 0, 0⟩ ⟨2, 2, 0, 0⟩
    (by decide) (by decide) (by decide)

/-- C3. The applicability filter keeps a rule exactly when (a) every
requested column lies in `allowed_columns` when that list is present and
outside `denied_columns` when that list is present (both trivially satisfied
when no columns are requested), and (b) an owner-scoped rule sees both owner
ids present and equal; when no rule survives, the engine returns deny with
reason "no rule matched context/columns". -/
theorem applicable_rules_characterization (query : EvaluatePermissionQuery)
    (rules : List PolicyRuleRecord) :
    (∀ r, r ∈ applicable_rules query rules ↔
      r ∈ rules ∧
        (∀ c ∈ query.requested_columns,
          (∀ allowed, r.allowed_columns = some allowed → c ∈ allowed) ∧
          (∀ denied, r.denied_columns = some denied → c ∉ denied)) ∧
        (r.owner_scope = true →
          ∃ owner, query.subject_owner_id = some owner ∧
            query.row_owner_id = some owner)) ∧
    (applicable_rules query rules = [] →
      evaluate_rules query rules =
        { allowed := false, reason := "no rule matched context/columns" }) := by
  constructor
  · intro r
    simp only [applicable_rules, List.mem_filter]
    rw [rule_matches_columns_iff, rule_matches_owner_scope_iff]
    tauto
  · intro h
    simp [evaluate_rules, h]

/-- Witness for C3: seed scenario 5 (a single Allow rule with
denied_columns = [precio] and a request for column precio) leaves no rule
applicable, and the engine returns the context/columns deny. -/
theorem applicable_rules_characterization_witness :
    evaluate_rules
      { tenant_id := "t1", principal_id := "p1", resource_name := "productos",
        action_name := "read", requested_columns := ["precio"],
        subject_owner_id := none, row_owner_id := none, request_id := none }
      [{ tenant_id := "t1", role_name := "editor", resource_name := "productos",
         action_name := "read", effect := .Allow, allowed_columns := none,
         denied_columns := some ["precio"], owner_scope := false }] =
      { allowed := false, reason := "no rule matched context/columns" } :=
  (applicable_rules_characterization _ _).2 (by decide)

/-- C8. The decision engine is invariant under permutation of the rule list,
both in the allowed flag and in the reason string. -/
theorem evaluate_rules_perm_invariant (query : EvaluatePermissionQuery)
    (rules1 rules2 : List PolicyRuleRecord) (h : rules1.Perm rules2) :
    evaluate_rules query rules1 = evaluate_rules query rules2 := by
  have happ : (applicable_rules query rules1).Perm (applicable_rules query rules2) := by
    unfold applicable_rules
    exact (h.filter _).filter _
  have hempty := happ.isEmpty_eq
  have hfold :
      (applicable_rules query rules1).foldl (best_step query) (none, none) =
        (applicable_rules query rules2).foldl (best_step query) (none, none) :=
    happ.foldl_eq' (fun x _ y _ z => best_step_right_comm query z x y) _
  simp only [evaluate_rules, hempty, hfold]

/-- Witness for C8: swapping the two rules of seed scenario 3 leaves the
decision unchanged. -/
theorem evaluate_rules_perm_invariant_witness :
    evaluate_rules
      { tenant_id := "t1", principal_id := "p1", resource_name := "productos",
        action_name := "read", requested_columns := [],
        subject_owner_id := none, row_owner_id := none, request_id := none }
      [{ tenant_id := "t1", role_name := "admin", resource_name := "*",
         action_name := "*", effect := .Deny, allowed_columns := none,
         denied_columns := none, owner_scope := false },
       { tenant_id := "t1", role_name := "admin", resource_name := "productos",
         action_name := "read", effect := .Allow, allowed_columns := none,
         denied_columns := none, owner_scope := false }] =
      evaluate_rules
        { tenant_id := "t1", principal_id := "p1", resource_name := "productos",
          action_name := "read", requested_columns := [],
          subject_owner_id := none, row_owner_id := none, request_id := none }
        [{ tenant_id := "t1", role_name := "admin", resource_name := "productos",
           action_name := "read", effect := .Allow, allowed_columns := none,
           denied_columns := none, owner_scope := false },
         { tenant_id := "t1", role_name := "admin", resource_name := "*",
           action_name := "*", effect := .Deny, allowed_columns := none,
           denied_columns := none, owner_scope := false }] :=
  evaluate_rules_perm_invariant _ _ _ (List.Perm.swap _ _ _)

/-- A stored row of the `access_policy_rules` table, as persisted by
`upsert_rule` in `sqlx_policy_rule_repository_impl.rs` (the effect column is
stored as text). -/
structure StoredPolicyRuleRow where
  tenant_id : String
  role_name : String
  resource_name : String
  action_name : String
  effect : String
  allowed_columns : Option (List String)
  denied_columns : Option (List String)
  owner_scope : Bool
deriving DecidableEq, Repr

/-- The SQL rule finder `find_rules_for_roles` of
`sqlx_policy_rule_repository_impl.rs`, as a pure function over the stored
rows. It mirrors the `WHERE` clause (tenant match, resource in
(requested, "*"), action in (requested, "*"), role in the given roles) and
the row mapping of lines 106-121: the SELECT list does not include the stored
resource_name / action_name columns, and the returned records carry the
REQUESTED resource and action in their place. -/
def find_rules_for_roles (stored : List StoredPolicyRuleRow)
    (tenant_id resource_name action_name : String)
    (role_names : List String) :
    Except String (List PolicyRuleRecord) :=
  if role_names.isEmpty then
    .ok []
  else
    let rows := stored.filter fun row =>
      row.tenant_id == tenant_id &&
        (row.resource_name == resource_name || row.resource_name == "*") &&
        (row.action_name == action_name || row.action_name == "*") &&
        role_names.any fun role => role == row.role_name
    rows.mapM fun row =>
      (PermissionEffect.fromStr row.effect).map fun effect =>
        { tenant_id := tenant_id
          role_name := row.role_name
          resource_name := resource_name
          action_name := action_name
          effect := effect
          allowed_columns := row.allowed_columns
          denied_columns := row.denied_columns
          owner_scope := row.owner_scope }

/-- Seed scenario 3: the query (tenant T1, principal P1, productos, read, no
columns, no owner ids). -/
def scenario3_query : EvaluatePermissionQuery :=
  { tenant_id := "00000000-0000-4000-8000-000000000001"
    principal_id := "00000000-0000-4000-8000-0000000000aa"
    resource_name := "productos"
    action_name := "read"
    requested_columns := []
    subject_owner_id := none
    row_owner_id := none
    request_id := none }

/-- Seed scenario 3: the two stored rules (T1, admin, *, *, Deny) and
(T1, admin, productos, read, Allow). -/
def scenario3_stored : List StoredPolicyRuleRow :=
  [{ tenant_id := "00000000-0000-4000-8000-000000000001"
     role_name := "admin", resource_name := "*", action_name := "*"
     effect := "deny", allowed_columns := none, denied_columns := none
     owner_scope := false },
   { tenant_id := "00000000-0000-4000-8000-000000000001"
     role_name := "admin", resource_name := "productos", action_name := "read"
     effect := "allow", allowed_columns := none, denied_columns := none
     owner_scope := false }]

/-- C1. The pipeline (SQL rule fetch, then evaluation) on seed scenario 3
returns deny with reason "deny rule won by precedence", NOT the claimed allow
with reason "allow rule won by specificity": `find_rules_for_roles` rewrites
every fetched rule's resource_name / action_name to the requested values, so
the stored wildcard Deny rule evaluates with the same full specificity
(2, 2, 0, 0) as the literal Allow rule. The second conjunct shows the engine
alone, fed the stored rules verbatim (as the repository's in-memory test fake
does), produces the claimed allow decision: the divergence is introduced by
the fetch step. -/
theorem scenario3_pipeline_denies :
    (find_rules_for_roles scenario3_stored
        "00000000-0000-4000-8000-000000000001" "productos" "read"
        ["admin"]).map (evaluate_rules scenario3_query) =
      .ok { allowed := false, reason := "deny rule won by precedence" } ∧
    evaluate_rules scenario3_query
      (scenario3_stored.map fun row =>
        { tenant_id := row.tenant_id, role_name := row.role_name,
          resource_name := row.resource_name, action_name := row.action_name,
          effect := if row.effect == "allow" then .Allow else .Deny,
          allowed_columns := row.allowed_columns,
          denied_columns := row.denied_columns,
          owner_scope := row.owner_scope }) =
      { allowed := true, reason := "allow rule won by specificity" } := by
  constructor
  · rfl
  · rfl

/-- Verified user context returned by the token verifier
(`iam_authentication_facade.rs`, `VerifiedUserContext`); `AuthenticatedUserId`
is modelled by its canonical string rendering. -/
structure VerifiedUserContext where
  subject_id : String
  jti : Option String
  exp_epoch_seconds : Nat
deriving DecidableEq, Repr

/-- Error type of the token verifier (`IamIntegrationError`). -/
inductive IamIntegrationError where
  | InvalidToken (msg : String)
  | Unavailable (msg : String)
deriving DecidableEq, Repr

/-- Circuit-breaker state (`CircuitState` in
`grpc_iam_authentication_facade_impl.rs`); instants are abstract `Nat`
ticks. -/
structure CircuitState where
  consecutive_failures : Nat
  opened_until : Option Nat
deriving DecidableEq, Repr

/-- One cache entry (`CachedVerification`). -/
structure CachedVerification where
  context : VerifiedUserContext
  expires_at : Nat
deriving DecidableEq, Repr

/-- Configuration of the facade (constructor arguments of
`GrpcIamAuthenticationFacadeImpl::new`). -/
structure FacadeConfig where
  cache_ttl : Nat
  failure_threshold : Nat
  open_duration : Nat
deriving DecidableEq, Repr

/-- Mutable state of the facade: the token cache (a hash map modelled as an
association list whose insert prepends) and the circuit breaker. -/
structure FacadeState where
  cache : List (String × CachedVerification)
  circuit : CircuitState
deriving DecidableEq, Repr

/-- Payload of the remote `VerifyAccessToken` RPC response
(`iam_grpc::VerifyAccessTokenResponse` as consumed by the facade). -/
structure VerifyTokenResponse where
  is_valid : Bool
  subject_id : String
  jti : String
  exp_epoch_seconds : Nat
  error_message : String
deriving DecidableEq, Repr

/-- Outcome of the remote interaction, supplied as an oracle: a connect
failure inside `grpc_client`, an RPC-level error from
`client.verify_access_token`, or a decoded response. -/
inductive RemoteOutcome where
  | connectError (msg : String)
  | rpcError (msg : String)
  | response (value : VerifyTokenResponse)
deriving DecidableEq, Repr

/-- Rust `str::trim`, dropping leading and trailing whitespace (implemented
on the character list; Lean's `String.trim` is byte-position based and does
not reduce in the kernel). Rust trims the full Unicode whitespace class,
`Char.isWhitespace` the ASCII one; the difference is immaterial to every
property proved here. -/
def rust_trim (s : String) : String :=
  ⟨((s.data.dropWhile Char.isWhitespace).reverse.dropWhile
      Char.isWhitespace).reverse⟩

/-- Cache-key hashing (`token_hash`): the SHA-256 hex digest is modelled by
the identity injection on tokens; no modelled property depends on more than
its injectivity. -/
def token_hash (token : String) : String :=
  token

/-- Breaker admission check (`can_attempt_call`): an open-until instant still
in the future refuses the call; an expired one is cleared and the call is
admitted. -/
def can_attempt_call (now : Nat) (circuit : CircuitState) :
    Bool × CircuitState :=
  match circuit.opened_until with
  | some until_instant =>
    if now < until_instant then
      (false, circuit)
    else
      (true, { circuit with opened_until := none })
  | none => (true, circuit)

/-- Success bookkeeping (`register_success`): reset the failure counter and
clear the open-until instant. -/
def register_success (_circuit : CircuitState) : CircuitState :=
  { consecutive_failures := 0, opened_until := none }

/-- Failure bookkeeping (`register_failure`): increment the consecutive
failure counter; on reaching the threshold, open the circuit for
`open_duration` and reset the counter. -/
def register_failure (config : FacadeConfig) (now : Nat)
    (circuit : CircuitState) : CircuitState :=
  let failures := circuit.consecutive_failures + 1
  if config.failure_threshold ≤ failures then
    { consecutive_failures := 0, opened_until := some (now + config.open_duration) }
  else
    { consecutive_failures := failures, opened_until := circuit.opened_until }

/-- Cache read (`get_cached`): a hit requires the entry to be unexpired. -/
def get_cached (now : Nat) (cache : List (String × CachedVerification))
    (hash : String) : Option VerifiedUserContext :=
  (cache.lookup hash).bind fun entry =>
    if now < entry.expires_at then some entry.context else none

/-- Cache write (`set_cache`): insert with expiry `now + cache_ttl`. -/
def set_cache (config : FacadeConfig) (now : Nat)
    (cache : List (String × CachedVerification)) (hash : String)
    (context : VerifiedUserContext) : List (String × CachedVerification) :=
  (hash, { context := context, expires_at := now + config.cache_ttl }) :: cache

/-- Hex-digit test used by the UUID format check. -/
def is_hex_digit (c : Char) : Bool :=
  c.isDigit || ('a' ≤ c && c ≤ 'f') || ('A' ≤ c && c ≤ 'F')

/-- Canonical 8-4-4-4-12 hyphenated UUID format check, modelling
`Uuid::parse_str` (`authenticated_user_id.rs` rejects any non-UUID subject).
`Uuid::parse_str` also accepts the simple, braced and urn renderings; no
claim in this development depends on those variants. -/
def uuid_parse_ok (value : String) : Bool :=
  let cs := value.toList
  cs.length == 36 &&
    (List.range 36).all fun i =>
      if i == 8 || i == 13 || i == 18 || i == 23 then
        cs.getD i ' ' == '-'
      else
        is_hex_digit (cs.getD i ' ')

/-- Subject-id validation (`AuthenticatedUserId::new` followed by
`as_string`): parse as UUID, error "subject_id must be a valid UUID"
otherwise; the canonical rendering is lowercase. -/
def authenticated_user_id_new (value : String) : Except String String :=
  if uuid_parse_ok value then
    .ok value.toLower
  else
    .error "subject_id must be a valid UUID"

/-- The token verifier (`verify_access_token` in
`grpc_iam_authentication_facade_impl.rs`) as one transition of the facade
state machine. The returned Bool records whether the call reached the remote
side (the `grpc_client` connect or the RPC itself); the breaker admission
check runs BEFORE the cache lookup, exactly as in the source (lines 151-161).
Note that a connect error inside `grpc_client` propagates via `?` without
touching the breaker, while an RPC error registers a failure. -/
def verify_access_token (config : FacadeConfig) (state : FacadeState)
    (now : Nat) (access_token : String) (remote : RemoteOutcome) :
    FacadeState × Except IamIntegrationError VerifiedUserContext × Bool :=
  if (rust_trim access_token).isEmpty then
    (state, .error (.InvalidToken "access token is empty"), false)
  else
    let admission := can_attempt_call now state.circuit
    let state1 : FacadeState := { state with circuit := admission.2 }
    if !admission.1 then
      (state1, .error (.Unavailable "circuit breaker is open"), false)
    else
      let hash := token_hash access_token
      match get_cached now state1.cache hash with
      | some cached => (state1, .ok cached, false)
      | none =>
        match remote with
        | .connectError msg =>
          (state1, .error (.Unavailable msg), true)
        | .rpcError msg =>
          ({ state1 with circuit := register_failure config now state1.circuit },
            .error (.Unavailable msg), true)
        | .response value =>
          let state2 : FacadeState :=
            { state1 with circuit := register_success state1.circuit }
          if !value.is_valid then
            (state2, .error (.InvalidToken value.error_message), true)
          else
            match authenticated_user_id_new value.subject_id with
            | .error msg => (state2, .error (.InvalidToken msg), true)
            | .ok subject =>
              let context : VerifiedUserContext :=
                { subject_id := subject
                  jti := if value.jti.isEmpty then none else some value.jti
                  exp_epoch_seconds := value.exp_epoch_seconds }
              ({ state2 with
                  cache := set_cache config now state2.cache hash context },
                .ok context, true)

/-- C4. The circuit breaker opens at the threshold and short-circuits: while
the open-until instant lies in the future, a verify call reaches the remote
side zero times and (for a non-empty token) returns Unavailable; the
threshold-reaching failure opens the circuit for `open_duration` and resets
the counter; a successful remote call (reached through a non-empty token, an
admitting breaker and a cache miss) resets the counter and clears the
open-until instant. -/
theorem breaker_opens_and_short_circuits (config : FacadeConfig)
    (state : FacadeState) (now : Nat) (token : String)
    (remote : RemoteOutcome) :
    (∀ u, state.circuit.opened_until = some u → now < u →
      (verify_access_token config state now token remote).2.2 = false ∧
      ((rust_trim token).isEmpty = false →
        (verify_access_token config state now token remote).2.1 =
          .error (.Unavailable "circuit breaker is open"))) ∧
    (config.failure_threshold ≤ state.circuit.consecutive_failures + 1 →
      register_failure config now state.circuit =
        { consecutive_failures := 0,
          opened_until := some (now + config.open_duration) }) ∧
    (∀ value, (rust_trim token).isEmpty = false →
      (can_attempt_call now state.circuit).1 = true →
      get_cached now state.cache (token_hash token) = none →
      (verify_access_token config state now token
          (.response value)).1.circuit =
        { consecutive_failures := 0, opened_until := none }) := by
  refine ⟨fun u hu hnow => ?_, fun hth => ?_, fun value htrim hadm hcache => ?_⟩
  · by_cases htrim : (rust_trim token).isEmpty
    · constructor
      · simp [verify_access_token, htrim]
      · intro habs
        rw [htrim] at habs
        cases habs
    · have hadm : can_attempt_call now state.circuit = (false, state.circuit) := by
        simp [can_attempt_call, hu, hnow]
      constructor
      · simp [verify_access_token, htrim, hadm]
      · intro _
        simp [verify_access_token, htrim, hadm]
  · simp only [register_failure, if_pos hth]
  · simp only [verify_access_token, htrim, Bool.false_eq_true, if_false, hadm,
      Bool.not_true]
    have hc : ({ state with circuit := (can_attempt_call now state.circuit).2 } :
        FacadeState).cache = state.cache := rfl
    rw [hc, hcache]
    by_cases hvalid : value.is_valid
    · simp only [hvalid, Bool.not_true, Bool.false_eq_true, if_false]
      cases hparse : authenticated_user_id_new value.subject_id with
      | error msg => simp [register_success]
      | ok subject => simp [register_success]
    · simp only [Bool.not_eq_true] at hvalid
      simp [hvalid, register_success]

/-- Witness for C4: with threshold 2 and open_duration 30, two consecutive
RPC failures (at ticks 0 and 1) leave the circuit open until tick 31, and the
third verify call at tick 2 returns Unavailable having attempted no remote
call. The first two conjuncts evaluate the two-failure prefix; the last two
apply the theorem to the resulting open state. -/
theorem breaker_opens_and_short_circuits_witness :
    (verify_access_token ⟨45, 2, 30⟩ ⟨[], ⟨0, none⟩⟩ 0 "tok"
        (.rpcError "e1")).1 = ⟨[], ⟨1, none⟩⟩ ∧
    (verify_access_token ⟨45, 2, 30⟩ ⟨[], ⟨1, none⟩⟩ 1 "tok"
        (.rpcError "e2")).1 = ⟨[], ⟨0, some 31⟩⟩ ∧
    (verify_access_token ⟨45, 2, 30⟩ ⟨[], ⟨0, some 31⟩⟩ 2 "tok"
        (.rpcError "e3")).2.2 = false ∧
    (verify_access_token ⟨45, 2, 30⟩ ⟨[], ⟨0, some 31⟩⟩ 2 "tok"
        (.rpcError "e3")).2.1 =
      .error (.Unavailable "circuit breaker is open") := by
  have h := (breaker_opens_and_short_circuits ⟨45, 2, 30⟩ ⟨[], ⟨0, some 31⟩⟩ 2
    "tok" (.rpcError "e3")).1 31 rfl (by decide)
  exact ⟨rfl, rfl, h.1, h.2 (by decide)⟩

/-- C5 counterexample. With the circuit open until tick 100 and an unexpired
cache entry for "token1" at tick 10, verify returns Unavailable instead of
the cached verification: the breaker check runs before the cache lookup
(lines 151-161 of `grpc_iam_authentication_facade_impl.rs`), refuting the
claim that a cache hit is returned even while the circuit is open. -/
theorem cache_hit_blocked_while_circuit_open :
    get_cached 10 [("token1", ⟨⟨"s", none, 99⟩, 100⟩)] (token_hash "token1") =
      some ⟨"s", none, 99⟩ ∧
    (verify_access_token ⟨45, 2, 30⟩
        ⟨[("token1", ⟨⟨"s", none, 99⟩, 100⟩)], ⟨0, some 100⟩⟩ 10 "token1"
        (.rpcError "boom")).2.1 =
      .error (.Unavailable "circuit breaker is open") ∧
    (verify_access_token ⟨45, 2, 30⟩
        ⟨[("token1", ⟨⟨"s", none, 99⟩, 100⟩)], ⟨0, some 100⟩⟩ 10 "token1"
        (.rpcError "boom")).2.1 ≠ .ok ⟨"s", none, 99⟩ := by
  exact ⟨rfl, rfl, fun h => Except.noConfusion h⟩

/-- C5 amended. The breaker check precedes the cache check: while the circuit
is open, a verify call with a non-empty token returns Unavailable without a
remote call even when an unexpired cache entry exists; when the breaker
admits the call, an unexpired cache hit is returned without a remote call. -/
theorem breaker_precedes_cache (config : FacadeConfig) (state : FacadeState)
    (now : Nat) (token : String) (remote : RemoteOutcome) :
    (∀ u, state.circuit.opened_until = some u → now < u →
      (rust_trim token).isEmpty = false →
      (verify_access_token config state now token remote).2.1 =
        .error (.Unavailable "circuit breaker is open") ∧
      (verify_access_token config state now token remote).2.2 = false) ∧
    (∀ context, (rust_trim token).isEmpty = false →
      (can_attempt_call now state.circuit).1 = true →
      get_cached now state.cache (token_hash token) = some context →
      (verify_access_token config state now token remote).2.1 = .ok context ∧
      (verify_access_token config state now token remote).2.2 = false) := by
  constructor
  · intro u hu hnow htrim
    have hadm : can_attempt_call now state.circuit = (false, state.circuit) := by
      simp [can_attempt_call, hu, hnow]
    constructor <;> simp [verify_access_token, htrim, hadm]
  · intro context htrim hadm hcache
    have hc : ({ state with circuit := (can_attempt_call now state.circuit).2 } :
        FacadeState).cache = state.cache := rfl
    constructor <;>
      · simp only [verify_access_token, htrim, Bool.false_eq_true, if_false,
          hadm, Bool.not_true]
        rw [hc, hcache]

/-- Witness for C5 (amended): at a closed circuit, the unexpired entry for
"token1" is served from the cache with no remote attempt. -/
theorem breaker_precedes_cache_witness :
    (verify_access_token ⟨45, 2, 30⟩
        ⟨[("token1", ⟨⟨"s", none, 99⟩, 100⟩)], ⟨0, none⟩⟩ 10 "token1"
        (.rpcError "boom")).2.1 = .ok ⟨"s", none, 99⟩ ∧
    (verify_access_token ⟨45, 2, 30⟩
        ⟨[("token1", ⟨⟨"s", none, 99⟩, 100⟩)], ⟨0, none⟩⟩ 10 "token1"
        (.rpcError "boom")).2.2 = false :=
  (breaker_precedes_cache ⟨45, 2, 30⟩
    ⟨[("token1", ⟨⟨"s", none, 99⟩, 100⟩)], ⟨0, none⟩⟩ 10 "token1"
    (.rpcError "boom")).2 ⟨"s", none, 99⟩ (by decide) (by decide) (by decide)

/-- Error type of the data-API domain (`data_api_domain_error.rs`); only the
variants reached by the modelled code paths are listed, with
`InfrastructureError` carrying its message. -/
inductive DataApiDomainError where
  | InvalidTenantId
  | InvalidColumnName
  | TableNotAllowed
  | MissingAuthentication
  | InvalidAuthentication
  | AccessDenied
  | TenantDatabaseNotFound
  | PrimaryKeyNotFound
  | PayloadTooLarge
  | InvalidPayload
  | NonEditableColumn (column : String)
  | InvalidQueryParameters
  | RecordNotFound
  | InfrastructureError (msg : String)
deriving DecidableEq, Repr

/-- Character class accepted by the data-API identifier checks:
`is_ascii_lowercase || is_ascii_digit || '_'`. -/
def data_api_ident_char (c : Char) : Bool :=
  c.isLower || c.isDigit || c == '_'

/-- SQL identifier quoting (`quote_identifier` in
`sqlx_data_api_repository_impl.rs`): reject empty identifiers and any
character outside `[a-z0-9_]`, then wrap in double quotes. The character walk
`identifier.chars().all(..)` is modelled over the string's character list. -/
def quote_identifier (identifier : String) : Except DataApiDomainError String :=
  if identifier.isEmpty || !(identifier.data.all data_api_ident_char) then
    .error .InvalidQueryParameters
  else
    .ok ("\"" ++ identifier ++ "\"")

/-- Column-name validation (`ColumnName::new` in `column_name.rs`): the value
is valid when its trim is non-empty and every character is in `[a-z0-9_]`.
There is no length restriction in the source. -/
def column_name_new (value : String) : Except DataApiDomainError String :=
  let valid := !(rust_trim value).isEmpty &&
    value.data.all data_api_ident_char
  if !valid then
    .error .InvalidColumnName
  else
    .ok value

/-- Modelled from the spec: the identifier pattern `^[a-z][a-z0-9_]*$` the
spec claims for every SQL identifier (first character a lowercase letter),
stated for comparison with the source-level checks above. -/
def spec_sql_ident (s : String) : Bool :=
  match s.data with
  | [] => false
  | c :: rest => c.isLower && rest.all fun d => d.isLower || d.isDigit || d == '_'

/-- C6 counterexample. The string "0" matches neither the claimed regex
`^[a-z][a-z0-9_]*$` (its first character is a digit) nor the claimed 3-63
length band, yet `quote_identifier` accepts it (returning the quoted
identifier) and `ColumnName::new` accepts it: the first-character restriction
and the length bounds are absent from the source. -/
theorem quote_identifier_accepts_digit_lead :
    spec_sql_ident "0" = false ∧
    "0".length = 1 ∧
    quote_identifier "0" = .ok "\x220\x22" ∧
    column_name_new "0" = .ok "0" := by
  refine ⟨rfl, rfl, rfl, rfl⟩

/-- C6 amended. `quote_identifier` accepts exactly the non-empty strings over
`[a-z0-9_]` (the first character need not be a letter) and rejects everything
else with InvalidQueryParameters; `ColumnName::new` accepts exactly the
strings with non-empty trim and all characters in `[a-z0-9_]` (no length
bounds) and rejects everything else with InvalidColumnName. -/
theorem identifier_validation_characterization (s : String) :
    (quote_identifier s = .ok ("\"" ++ s ++ "\"") ↔
      (s.isEmpty = false ∧ s.data.all data_api_ident_char = true)) ∧
    (quote_identifier s = .error .InvalidQueryParameters ↔
      ¬(s.isEmpty = false ∧ s.data.all data_api_ident_char = true)) ∧
    (column_name_new s = .ok s ↔
      ((rust_trim s).isEmpty = false ∧ s.data.all data_api_ident_char = true)) ∧
    (column_name_new s = .error .InvalidColumnName ↔
      ¬((rust_trim s).isEmpty = false ∧ s.data.all data_api_ident_char = true)) := by
  by_cases hb : s.isEmpty <;> by_cases hc : s.data.all data_api_ident_char <;>
    by_cases ht : (rust_trim s).isEmpty <;>
      simp [quote_identifier, column_name_new, hb, hc, ht]

/-- Data-API action enum (`data_api_action.rs`). -/
inductive DataApiAction where
  | Create
  | Read
  | Update
  | Delete
deriving DecidableEq, Repr

/-- String rendering of an action (`DataApiAction::as_str`). -/
def DataApiAction.as_str : DataApiAction → String
  | .Create => "create"
  | .Read => "read"
  | .Update => "update"
  | .Delete => "delete"

/-- Client-visible message of a data-API error (the `thiserror` display
strings of `data_api_domain_error.rs`), used for audit details. -/
def DataApiDomainError.message : DataApiDomainError → String
  | .InvalidTenantId => "tenant id is required"
  | .InvalidColumnName => "column name is invalid"
  | .TableNotAllowed => "table is not exposed by allowlist"
  | .MissingAuthentication => "authentication is required (x-api-key or bearer token)"
  | .InvalidAuthentication => "authentication mechanism is invalid"
  | .AccessDenied => "access denied by ACL"
  | .TenantDatabaseNotFound => "tenant database not found"
  | .PrimaryKeyNotFound => "table has no primary key"
  | .PayloadTooLarge => "payload size exceeded"
  | .InvalidPayload => "payload must be an object"
  | .NonEditableColumn column => "column is not editable: " ++ column
  | .InvalidQueryParameters => "invalid filter or sort expression"
  | .RecordNotFound => "record not found"
  | .InfrastructureError msg => "infrastructure error: " ++ msg

/-- Table access flags (`TableAccessMetadata` in `data_api_repository.rs`). -/
structure TableAccessMetadata where
  exposed : Bool
  read_enabled : Bool
  create_enabled : Bool
  update_enabled : Bool
  delete_enabled : Bool
  introspect_enabled : Bool
  authorization_mode : String
deriving DecidableEq, Repr

/-- A column of an introspected table (`table_schema_metadata.rs`). -/
structure TableColumnMetadata where
  column_name : String
  is_nullable : Bool
  data_type : String
  is_primary_key : Bool
deriving DecidableEq, Repr

/-- Introspected table schema (`table_schema_metadata.rs`). -/
structure TableSchemaMetadata where
  schema_name : String
  table_name : String
  columns : List TableColumnMetadata
deriving DecidableEq, Repr

/-- First primary-key column (`TableSchemaMetadata::primary_key_column`). -/
def TableSchemaMetadata.primary_key_column (m : TableSchemaMetadata) :
    Option TableColumnMetadata :=
  m.columns.find? fun c => c.is_primary_key

/-- The delete command (`delete_row_command.rs`); validated value objects are
modelled by their underlying strings, and the `api_version` and
`principal_type` fields, which `handle_delete` never reads, are omitted. -/
structure DeleteRowCommand where
  tenant_id : String
  schema_name : String
  table_name : String
  row_identifier : String
  principal : String
  request_id : Option String
  subject_owner_id : Option String
  row_owner_id : Option String
deriving DecidableEq, Repr

/-- Permission-check request handed to the access-control facade
(`access_control_facade.rs`, `DataApiAuthorizationCheckRequest`). -/
structure DataApiAuthorizationCheckRequest where
  tenant_id : String
  principal_id : String
  resource_name : String
  action_name : String
  requested_columns : List String
  subject_owner_id : Option String
  row_owner_id : Option String
  request_id : Option String
deriving DecidableEq, Repr

/-- Bootstrap request handed to the access-control facade
(`access_control_facade.rs`, `DataApiAuthorizationBootstrapRequest`). -/
structure DataApiAuthorizationBootstrapRequest where
  tenant_id : String
  principal_id : String
  resource_name : String
  readable_columns : List String
  writable_columns : List String
deriving DecidableEq, Repr

/-- Audit event of a data operation
(`data_api_request_audited_event.rs`); the wall-clock `occurred_at` is
omitted. -/
structure DataApiRequestAuditedEvent where
  tenant_id : String
  request_id : Option String
  schema_name : String
  table_name : String
  action : DataApiAction
  principal : String
  success : Bool
  status_code : Nat
  details : Option String
deriving DecidableEq, Repr

/-- Action gating (`ensure_action_allowed` in
`data_api_command_service_impl.rs`). -/
def ensure_action_allowed (action_enabled table_exposed : Bool) :
    Except DataApiDomainError Unit :=
  if !table_exposed || !action_enabled then
    .error .TableNotAllowed
  else
    .ok ()

/-- Rust `str::eq_ignore_ascii_case`, modelled by comparing the
ASCII-lowercased character lists. -/
def eq_ignore_ascii_case (a b : String) : Bool :=
  a.data.map Char.toLower == b.data.map Char.toLower

/-- ACL enforcement step (`enforce_acl_if_required` in
`data_api_command_service_impl.rs`): in mode "acl" (ASCII-case-insensitive)
run bootstrap then the permission check; otherwise do nothing. The second
component instruments the model with the request actually handed to
`check_table_permission` (`none` when the check is never invoked). -/
def enforce_acl_if_required (authorization_mode : String)
    (bootstrap_result check_result : Except DataApiDomainError Unit)
    (check_request : DataApiAuthorizationCheckRequest) :
    Except DataApiDomainError Unit × Option DataApiAuthorizationCheckRequest :=
  if eq_ignore_ascii_case authorization_mode "acl" then
    match bootstrap_result with
    | .error e => (.error e, none)
    | .ok _ =>
      match check_result with
      | .error e => (.error e, some check_request)
      | .ok _ => (.ok (), some check_request)
  else
    (.ok (), none)

/-- Oracle results of the repository and facade calls performed by
`handle_delete`, one field per awaited call in source order. -/
structure DeleteEnv where
  resolved_schema : Except DataApiDomainError String
  synchronize_result : Except DataApiDomainError Unit
  table_access : Except DataApiDomainError TableAccessMetadata
  introspect_result : Except DataApiDomainError TableSchemaMetadata
  writable_columns : Except DataApiDomainError (List String)
  bootstrap_result : Except DataApiDomainError Unit
  check_result : Except DataApiDomainError Unit
  delete_row_result : Except DataApiDomainError Bool
  audit_save_result : Except DataApiDomainError Unit
deriving Repr

/-- Outcome of a modelled `handle_delete` run: the value returned to the
caller, the permission-check request handed to the facade (when any), and
the audit events written. -/
structure DeleteOutcome where
  result : Except DataApiDomainError Unit
  check_request : Option DataApiAuthorizationCheckRequest
  audited : List DataApiRequestAuditedEvent
deriving Repr

/-- Fire-and-forget audit write (`audit` in
`data_api_command_service_impl.rs`): `let _ = save_event(..).await` discards
the save outcome; the event row is attempted regardless. -/
def audit_data_api_event (save_result : Except DataApiDomainError Unit)
    (event : DataApiRequestAuditedEvent) : List DataApiRequestAuditedEvent :=
  let _ := save_result
  [event]

/-- The delete coordinator (`handle_delete` in
`data_api_command_service_impl.rs`): schema resolution, metadata
synchronization, table-access gating, introspection, primary-key lookup, ACL
enforcement (note `requested_columns: vec![primary_key.column_name]` at line
488), row deletion and auditing. -/
def handle_delete (env : DeleteEnv) (command : DeleteRowCommand) :
    DeleteOutcome :=
  match env.resolved_schema with
  | .error e => ⟨.error e, none, []⟩
  | .ok schema_name =>
    match env.synchronize_result with
    | .error e => ⟨.error e, none, []⟩
    | .ok _ =>
      match env.table_access with
      | .error e => ⟨.error e, none, []⟩
      | .ok access_metadata =>
        match ensure_action_allowed access_metadata.delete_enabled
            access_metadata.exposed with
        | .error e => ⟨.error e, none, []⟩
        | .ok _ =>
          match env.introspect_result with
          | .error e => ⟨.error e, none, []⟩
          | .ok metadata =>
            match metadata.primary_key_column with
            | none => ⟨.error .PrimaryKeyNotFound, none, []⟩
            | some primary_key =>
              match env.writable_columns with
              | .error e => ⟨.error e, none, []⟩
              | .ok writable =>
                let bootstrap_request : DataApiAuthorizationBootstrapRequest :=
                  { tenant_id := command.tenant_id
                    principal_id := command.principal
                    resource_name := command.table_name
                    readable_columns :=
                      metadata.columns.map fun column => column.column_name
                    writable_columns := writable }
                let check_request : DataApiAuthorizationCheckRequest :=
                  { tenant_id := command.tenant_id
                    principal_id := command.principal
                    resource_name := command.table_name
                    action_name := DataApiAction.Delete.as_str
                    requested_columns := [primary_key.column_name]
                    subject_owner_id := command.subject_owner_id
                    row_owner_id := command.row_owner_id
                    request_id := command.request_id }
                let _ := bootstrap_request
                let acl := enforce_acl_if_required
                  access_metadata.authorization_mode
                  env.bootstrap_result env.check_result check_request
                match acl.1 with
                | .error e => ⟨.error e, acl.2, []⟩
                | .ok _ =>
                  match env.delete_row_result with
                  | .ok true =>
                    ⟨.ok (), acl.2,
                      audit_data_api_event env.audit_save_result
                        { tenant_id := command.tenant_id
                          request_id := command.request_id
                          schema_name := schema_name
                          table_name := command.table_name
                          action := .Delete
                          principal := command.principal
                          success := true
                          status_code := 204
                          details := none }⟩
                  | .ok false =>
                    ⟨.error .RecordNotFound, acl.2,
                      audit_data_api_event env.audit_save_result
                        { tenant_id := command.tenant_id
                          request_id := command.request_id
                          schema_name := schema_name
                          table_name := command.table_name
                          action := .Delete
                          principal := command.principal
                          success := false
                          status_code := 404
                          details := some "record not found" }⟩
                  | .error e =>
                    ⟨.error e, acl.2,
                      audit_data_api_event env.audit_save_result
                        { tenant_id := command.tenant_id
                          request_id := command.request_id
                          schema_name := schema_name
                          table_name := command.table_name
                          action := .Delete
                          principal := command.principal
                          success := false
                          status_code := 500
                          details := some e.message }⟩

/-- Concrete delete scenario: an acl-mode table "productos" with primary key
"id" and one writable column. -/
def c7_env : DeleteEnv :=
  { resolved_schema := .ok "public"
    synchronize_result := .ok ()
    table_access := .ok
      { exposed := true, read_enabled := true, create_enabled := true,
        update_enabled := true, delete_enabled := true,
        introspect_enabled := true, authorization_mode := "acl" }
    introspect_result := .ok
      { schema_name := "public", table_name := "productos",
        columns := [{ column_name := "id", is_nullable := false,
                      data_type := "integer", is_primary_key := true },
                    { column_name := "nombre", is_nullable := true,
                      data_type := "text", is_primary_key := false }] }
    writable_columns := .ok ["nombre"]
    bootstrap_result := .ok ()
    check_result := .ok ()
    delete_row_result := .ok true
    audit_save_result := .ok () }

/-- Concrete delete command for the scenario above. -/
def c7_command : DeleteRowCommand :=
  { tenant_id := "00000000-0000-4000-8000-000000000001"
    schema_name := "public", table_name := "productos"
    row_identifier := "1", principal := "00000000-0000-4000-8000-0000000000aa"
    request_id := none, subject_owner_id := none, row_owner_id := none }

/-- The permission-check request `handle_delete` hands to the facade in the
scenario above. -/
def c7_check_request : DataApiAuthorizationCheckRequest :=
  { tenant_id := "00000000-0000-4000-8000-000000000001"
    principal_id := "00000000-0000-4000-8000-0000000000aa"
    resource_name := "productos", action_name := "delete"
    requested_columns := ["id"], subject_owner_id := none
    row_owner_id := none, request_id := none }

/-- C7 counterexample. In an acl-mode delete run, the permission-check
request built by the coordinator carries `requested_columns = ["id"]` (the
primary-key column, line 488 of `data_api_command_service_impl.rs`), not the
empty list the claim states. -/
theorem delete_check_request_not_empty :
    (handle_delete c7_env c7_command).check_request = some c7_check_request ∧
    c7_check_request.requested_columns = ["id"] ∧
    c7_check_request.requested_columns ≠ [] :=
  ⟨rfl, rfl, fun h => List.noConfusion h⟩

/-- C7 amended. For every delete request in which the coordinator hands a
permission-check request to the facade (acl mode reached), that request
carries `requested_columns` equal to the one-element list holding the
introspected primary-key column and action "delete": a rule's
allowed_columns / denied_columns lists therefore apply to the primary-key
column for deletes rather than being trivially satisfied. -/
theorem delete_check_request_carries_primary_key (env : DeleteEnv)
    (command : DeleteRowCommand) (req : DataApiAuthorizationCheckRequest)
    (h : (handle_delete env command).check_request = some req) :
    ∃ metadata primary_key,
      env.introspect_result = .ok metadata ∧
      metadata.primary_key_column = some primary_key ∧
      req.requested_columns = [primary_key.column_name] ∧
      req.action_name = "delete" := by
  simp only [handle_delete, enforce_acl_if_required] at h
  repeat' split at h
  all_goals dsimp only at h
  all_goals
    first
      | (injection h with h
         subst h
         exact ⟨_, _, by assumption, by assumption, rfl, rfl⟩)
      | exact absurd h (by simp)

/-- Witness for C7 (amended): the concrete acl-mode scenario instantiates the
theorem, with the primary-key column "id". -/
theorem delete_check_request_carries_primary_key_witness :
    ∃ metadata primary_key,
      c7_env.introspect_result = .ok metadata ∧
      metadata.primary_key_column = some primary_key ∧
      c7_check_request.requested_columns = [primary_key.column_name] ∧
      c7_check_request.action_name = "delete" :=
  delete_check_request_carries_primary_key c7_env c7_command c7_check_request rfl

/-- Error type of the access-control domain
(`access_control_domain_error.rs`). -/
inductive AccessControlDomainError where
  | InvalidTenantId
  | InvalidPrincipalId
  | InvalidRoleName
  | InvalidResourceName
  | InvalidActionName
  | AccessDenied
  | PolicyNotFound
  | InfrastructureError (msg : String)
deriving DecidableEq, Repr

/-- Decision-cache key (`DecisionCacheKey` in
`access_control_query_service_impl.rs`). -/
structure DecisionCacheKey where
  tenant_id : String
  principal_id : String
  resource_name : String
  action_name : String
  requested_columns : List String
  subject_owner_id : Option String
  row_owner_id : Option String
deriving DecidableEq, Repr

/-- Decision-cache entry (`DecisionCacheEntry`). -/
structure DecisionCacheEntry where
  decision : AuthorizationDecisionResult
  expires_at : Nat
deriving DecidableEq, Repr

/-- Cache-key construction (`build_cache_key`): the requested columns are
sorted ascending before keying (Rust `Vec::sort`, modelled by insertion
sort). -/
def build_cache_key (query : EvaluatePermissionQuery) : DecisionCacheKey :=
  { tenant_id := query.tenant_id
    principal_id := query.principal_id
    resource_name := query.resource_name
    action_name := query.action_name
    requested_columns := query.requested_columns.insertionSort (· ≤ ·)
    subject_owner_id := query.subject_owner_id
    row_owner_id := query.row_owner_id }

/-- Cache read (`load_cached_decision`): a hit requires an unexpired entry. -/
def load_cached_decision (now : Nat)
    (cache : List (DecisionCacheKey × DecisionCacheEntry))
    (key : DecisionCacheKey) : Option AuthorizationDecisionResult :=
  (cache.lookup key).bind fun entry =>
    if now < entry.expires_at then some entry.decision else none

/-- Cache write (`cache_decision`): insert with expiry `now + cache_ttl`. -/
def cache_decision (cache_ttl now : Nat)
    (cache : List (DecisionCacheKey × DecisionCacheEntry))
    (key : DecisionCacheKey) (decision : AuthorizationDecisionResult) :
    List (DecisionCacheKey × DecisionCacheEntry) :=
  (key, { decision := decision, expires_at := now + cache_ttl }) :: cache

/-- Audit event of an authorization decision
(`authorization_decision_audited_event.rs`); the wall-clock `occurred_at` is
omitted. -/
structure AuthorizationDecisionAuditedEvent where
  tenant_id : String
  principal_id : String
  request_id : Option String
  resource_name : String
  action_name : String
  allowed : Bool
  reason : String
deriving DecidableEq, Repr

/-- Fire-and-forget audit write (`audit` in
`access_control_query_service_impl.rs`): `let _ = save_decision(..).await`
discards the save outcome; the event is attempted regardless. -/
def audit_decision_event
    (save_result : Except AccessControlDomainError Unit)
    (event : AuthorizationDecisionAuditedEvent) :
    List AuthorizationDecisionAuditedEvent :=
  let _ := save_result
  [event]

/-- The audit event built by `audit` from a query and a decision. -/
def decision_event (query : EvaluatePermissionQuery)
    (decision : AuthorizationDecisionResult) :
    AuthorizationDecisionAuditedEvent :=
  { tenant_id := query.tenant_id
    principal_id := query.principal_id
    request_id := query.request_id
    resource_name := query.resource_name
    action_name := query.action_name
    allowed := decision.allowed
    reason := decision.reason }

/-- Oracle results of the repository calls performed by
`handle_evaluate_permission`, plus the clock and the configured TTL. -/
structure QueryServiceEnv where
  roles_result : Except AccessControlDomainError (List String)
  rules_result : Except AccessControlDomainError (List PolicyRuleRecord)
  audit_save_result : Except AccessControlDomainError Unit
  now : Nat
  cache_ttl : Nat
deriving Repr

/-- Outcome of a modelled `handle_evaluate_permission` run: the value
returned to the caller, the decision cache afterwards, and the audit events
written. -/
structure EvaluateOutcome where
  result : Except AccessControlDomainError AuthorizationDecisionResult
  cache : List (DecisionCacheKey × DecisionCacheEntry)
  audited : List AuthorizationDecisionAuditedEvent
deriving Repr

/-- The query-service entry point (`handle_evaluate_permission` in
`access_control_query_service_impl.rs`): cache probe (auditing hits with a
"cached: "-prefixed reason), role lookup ("no roles assigned" when empty),
rule fetch ("no matching policy rule" when empty), engine evaluation; every
computed decision is audited and cached. -/
def handle_evaluate_permission (env : QueryServiceEnv)
    (cache : List (DecisionCacheKey × DecisionCacheEntry))
    (query : EvaluatePermissionQuery) : EvaluateOutcome :=
  let cache_key := build_cache_key query
  match load_cached_decision env.now cache cache_key with
  | some cached =>
    ⟨.ok cached, cache,
      audit_decision_event env.audit_save_result
        (decision_event query
          { allowed := cached.allowed, reason := "cached: " ++ cached.reason })⟩
  | none =>
    match env.roles_result with
    | .error e => ⟨.error e, cache, []⟩
    | .ok roles =>
      if roles.isEmpty then
        let decision : AuthorizationDecisionResult :=
          { allowed := false, reason := "no roles assigned" }
        ⟨.ok decision,
          cache_decision env.cache_ttl env.now cache cache_key decision,
          audit_decision_event env.audit_save_result
            (decision_event query decision)⟩
      else
        match env.rules_result with
        | .error e => ⟨.error e, cache, []⟩
        | .ok rules =>
          if rules.isEmpty then
            let decision : AuthorizationDecisionResult :=
              { allowed := false, reason := "no matching policy rule" }
            ⟨.ok decision,
              cache_decision env.cache_ttl env.now cache cache_key decision,
              audit_decision_event env.audit_save_result
                (decision_event query decision)⟩
          else
            let decision := evaluate_rules query rules
            ⟨.ok decision,
              cache_decision env.cache_ttl env.now cache cache_key decision,
              audit_decision_event env.audit_save_result
                (decision_event query decision)⟩

/-- C9. Audit writes are fire-and-forget: the value returned to the caller by
the decision pipeline and by the delete coordinator is identical in two runs
that differ only in whether the audit repository's save operation succeeds or
fails; the audit rows attempted and all other outputs also coincide. -/
theorem audit_failure_does_not_alter_outcome :
    (∀ (env : QueryServiceEnv)
      (cache : List (DecisionCacheKey × DecisionCacheEntry))
      (query : EvaluatePermissionQuery)
      (save1 save2 : Except AccessControlDomainError Unit),
      handle_evaluate_permission { env with audit_save_result := save1 }
          cache query =
        handle_evaluate_permission { env with audit_save_result := save2 }
          cache query) ∧
    (∀ (env : DeleteEnv) (command : DeleteRowCommand)
      (save1 save2 : Except DataApiDomainError Unit),
      handle_delete { env with audit_save_result := save1 } command =
        handle_delete { env with audit_save_result := save2 } command) := by
  constructor
  · intro env cache query save1 save2
    rfl
  · intro env command save1 save2
    rfl

/-- Error carried by a REST handler response: the controller maps domain,
IAM and infrastructure errors to HTTP status plus body via
`map_domain_error` / `map_iam_error` / `map_infra_error`; the model keeps the
mapped source tagged. -/
inductive RestError where
  | domain (e : DataApiDomainError)
  | iam (e : IamIntegrationError)
  | infra (msg : String)
deriving DecidableEq, Repr

/-- Authentication context built per request (`AuthContext` in
`data_api_rest_controller.rs`); `principal_type` is its string rendering
("jwt" for `DataApiPrincipalType::Jwt`). -/
structure AuthContext where
  tenant_id : String
  schema_name : String
  principal : String
  principal_type : String
  request_id : Option String
  subject_owner_id : Option String
  row_owner_id : Option String
deriving DecidableEq, Repr

/-- Oracle results of the awaited calls inside `parse_auth_context`: the
token verification (C1 facade) and the tenant-ownership lookup. -/
structure ParseAuthEnv where
  verify_result : Except IamIntegrationError VerifiedUserContext
  ownership_result : Except String Bool
deriving Repr

/-- Required-header extraction (`header_string` in
`data_api_rest_controller.rs`): get, trim, reject empty, else
InvalidTenantId. Headers are modelled as an association list of
lowercase-named values (axum's `HeaderMap` lowercases names; `to_str`
failures are not modelled as header values are strings here). -/
def header_string (headers : List (String × String)) (name : String) :
    Except RestError String :=
  match ((headers.lookup name).map rust_trim).filter
      (fun v => !v.isEmpty) with
  | none => .error (.domain .InvalidTenantId)
  | some value => .ok value

/-- Optional trimmed header (`headers.get(..).map(str::trim).filter(..)`). -/
def optional_header (headers : List (String × String)) (name : String) :
    Option String :=
  ((headers.lookup name).map rust_trim).filter fun v => !v.isEmpty

/-- The authentication-context parser (`parse_auth_context` in
`data_api_rest_controller.rs`): required tenant header, schema default,
bearer-token extraction (Rust `strip_prefix("Bearer ")` modelled via a
character-list prefix test and drop of its 7 characters), token verification,
tenant UUID parse, ownership check, then context construction. The
`subject_owner_id` is set to `Some(principal)` at line 865; no header named
x-subject-owner-id is ever read. -/
def parse_auth_context (env : ParseAuthEnv)
    (headers : List (String × String)) : Except RestError AuthContext :=
  match header_string headers "x-tenant-id" with
  | .error e => .error e
  | .ok tenant_id =>
    let schema_name := (headers.lookup "x-tenant-schema").getD "public"
    match optional_header headers "authorization" with
    | none => .error (.domain .MissingAuthentication)
    | some authorization =>
      if "Bearer ".data.isPrefixOf authorization.data then
        let token := rust_trim ⟨authorization.data.drop 7⟩
        if token.isEmpty then
          .error (.domain .InvalidAuthentication)
        else
          match env.verify_result with
          | .error e => .error (.iam e)
          | .ok verification =>
            let principal := verification.subject_id
            if !uuid_parse_ok tenant_id then
              .error (.domain .InvalidTenantId)
            else
              match env.ownership_result with
              | .error e => .error (.infra e)
              | .ok has_ownership =>
                if !has_ownership then
                  .error (.domain .AccessDenied)
                else
                  let request_id := optional_header headers "x-request-id"
                  let subject_owner_id := some principal
                  let row_owner_id := optional_header headers "x-row-owner-id"
                  .ok { tenant_id := tenant_id
                        schema_name := schema_name
                        principal := principal
                        principal_type := "jwt"
                        request_id := request_id
                        subject_owner_id := subject_owner_id
                        row_owner_id := row_owner_id }
      else
        .error (.domain .InvalidAuthentication)

/-- Association-list lookups skip entries under a different key. -/
theorem lookup_cons_of_ne {β : Type} (key name : String) (value : β)
    (headers : List (String × β)) (h : (name == key) = false) :
    ((key, value) :: headers).lookup name = headers.lookup name := by
  simp [List.lookup, h]

/-- C10. Every successfully built authentication context carries
`subject_owner_id = Some(principal)` with the principal taken from the
verified token's subject, and the x-subject-owner-id request header is never
read: adding such a header (with any value) leaves the parse result
unchanged. -/
theorem subject_owner_id_is_verified_principal (env : ParseAuthEnv)
    (headers : List (String × String)) :
    (∀ context, parse_auth_context env headers = .ok context →
      context.subject_owner_id = some context.principal ∧
      (∀ verification, env.verify_result = .ok verification →
        context.principal = verification.subject_id)) ∧
    (∀ value,
      parse_auth_context env (("x-subject-owner-id", value) :: headers) =
        parse_auth_context env headers) := by
  constructor
  · intro context h
    simp only [parse_auth_context] at h
    repeat' split at h
    all_goals first
      | (injection h with h
         subst h
         refine ⟨rfl, fun verification hv => ?_⟩
         simp_all)
      | exact absurd h (by simp)
  · intro value
    simp only [parse_auth_context, header_string, optional_header,
      lookup_cons_of_ne _ _ _ _ (show (("x-tenant-id" : String) ==
        "x-subject-owner-id") = false by rfl),
      lookup_cons_of_ne _ _ _ _ (show (("x-tenant-schema" : String) ==
        "x-subject-owner-id") = false by rfl),
      lookup_cons_of_ne _ _ _ _ (show (("authorization" : String) ==
        "x-subject-owner-id") = false by rfl),
      lookup_cons_of_ne _ _ _ _ (show (("x-request-id" : String) ==
        "x-subject-owner-id") = false by rfl),
      lookup_cons_of_ne _ _ _ _ (show (("x-row-owner-id" : String) ==
        "x-subject-owner-id") = false by rfl)]

/-- Concrete request environment for the C10 witness: a verified token whose
subject is P1 and a positive ownership check. -/
def c10_env : ParseAuthEnv :=
  { verify_result := .ok
      { subject_id := "00000000-0000-4000-8000-0000000000aa"
        jti := none, exp_epoch_seconds := 1234 }
    ownership_result := .ok true }

/-- Concrete headers for the C10 witness (no x-subject-owner-id present). -/
def c10_headers : List (String × String) :=
  [("x-tenant-id", "00000000-0000-4000-8000-000000000001"),
   ("authorization", "Bearer token123")]

/-- The context `parse_auth_context` builds for the concrete request. -/
def c10_context : AuthContext :=
  { tenant_id := "00000000-0000-4000-8000-000000000001"
    schema_name := "public"
    principal := "00000000-0000-4000-8000-0000000000aa"
    principal_type := "jwt"
    request_id := none
    subject_owner_id := some "00000000-0000-4000-8000-0000000000aa"
    row_owner_id := none }

/-- Witness for C10: on the concrete request the parser succeeds and the
built context's subject owner is the verified principal; spoofing the
x-subject-owner-id header does not change the result. -/
theorem subject_owner_id_is_verified_principal_witness :
    c10_context.subject_owner_id = some c10_context.principal ∧
    c10_context.principal = "00000000-0000-4000-8000-0000000000aa" ∧
    parse_auth_context c10_env
        (("x-subject-owner-id", "spoofed") :: c10_headers) =
      parse_auth_context c10_env c10_headers :=
  ⟨((subject_owner_id_is_verified_principal c10_env c10_headers).1
      c10_context rfl).1,
   ((subject_owner_id_is_verified_principal c10_env c10_headers).1
      c10_context rfl).2
      { subject_id := "00000000-0000-4000-8000-0000000000aa"
        jti := none, exp_epoch_seconds := 1234 } rfl,
   (subject_owner_id_is_verified_principal c10_env c10_headers).2 "spoofed"⟩
